import Mathlib

/-!
Verification of the realestateGPT quota/entitlement logic.

The definitions below are a shallow embedding of two request handlers:

* the chat/ask handler of `api/ask.js` (in `voice.js`): load the user's
  entitlement document, reconcile the weekly quota window, admit or reject,
  optionally enrich the prompt with text extracted from up to three attached
  files, call the inference API, decrement the quota for free users and
  persist the chat turn;
* the Stripe webhook handler of `index.js`: verify the signature, deduplicate
  by event id, and map checkout/subscription events onto the user's plan.

External effects (Firestore reads/writes, S3 fetches, parsers, the OpenAI
call, Stripe signature verification) are modelled as explicit state passing
and oracle functions; timestamps are integers (milliseconds since epoch).
Every Firestore write the ask handler issues is also recorded in a trace of
`StoreOp` values so that frame properties ("no other field changes", "the
write is an unconditional merge") can be stated.
-/

namespace RealestateGPT

/-- JS `a || b` for an optional string: `undefined`/`null` and the empty
string are falsy. -/
def jsOr (a : Option String) (b : String) : String :=
  match a with
  | some x => if x = "" then b else x
  | none => b

/-- JS `a || b` where both sides are nullable strings. -/
def jsOrOpt (a b : Option String) : Option String :=
  match a with
  | some x => if x = "" then b else some x
  | none => b

/-- JS `x || null`: collapses the empty string to `null`. -/
def jsOrNull (a : Option String) : Option String :=
  match a with
  | some x => if x = "" then none else some x
  | none => none

/-- The plan/quota fields of a `users/{uid}` Firestore document read by the
ask handler.  Each field may be absent. -/
structure UserDoc where
  plan : Option String
  quota : Option Int
  quota_reset_at : Option Int
deriving Repr, DecidableEq

def UserDoc.empty : UserDoc := ⟨none, none, none⟩

/-- The fields of a `set(..., { merge: true })` write on a user document:
`none` means the field is not part of the write. -/
structure UserPatch where
  plan : Option String := none
  quota : Option Int := none
  quota_reset_at : Option Int := none
deriving Repr, DecidableEq

/-- Firestore `set` with `{ merge: true }`: fields present in the patch
overwrite, the others are kept; writing to an absent document creates it. -/
def applyUserPatch (u : Option UserDoc) (p : UserPatch) : UserDoc :=
  let base := u.getD UserDoc.empty
  { plan := p.plan <|> base.plan
    quota := p.quota <|> base.quota
    quota_reset_at := p.quota_reset_at <|> base.quota_reset_at }

/-- One user/assistant message pair appended to a chat document. -/
structure ChatTurn where
  chatId : String
  title : String
  question : String
  answer : String
deriving Repr, DecidableEq

/-- The slice of the Firestore state the ask handler touches: the caller's
user document and the chat turns persisted under it. -/
structure Store where
  user : Option UserDoc
  chats : List ChatTurn
deriving Repr, DecidableEq

def storedQuota (s : Store) : Option Int := s.user.bind UserDoc.quota

/-- The storage operations the ask handler can issue.  `condDecQuotaIfPos`
is the storage-layer conditional decrement (a write guarded by `quota > 0`)
that the spec requires; it is part of the vocabulary so that the claim
"enforced at the storage layer via a conditional write" can be stated, and
the embedding of the source never emits it. -/
inductive StoreOp where
  | setUserMerge (p : UserPatch)
  | condDecQuotaIfPos
  | addChat (id : String) (title : String)
  | setChatMerge (id : String) (title : String) (question : String) (answer : String)
deriving Repr, DecidableEq

/-- Whether an operation is a storage-layer conditional write. -/
def StoreOp.isCondWrite : StoreOp → Bool
  | .condDecQuotaIfPos => true
  | _ => false

/-- `FREE_WEEKLY_LIMIT` (env, default 3) and whether `S3_BUCKET` is set. -/
structure Config where
  FREE_WEEKLY_LIMIT : Int
  hasS3Bucket : Bool
deriving Repr, DecidableEq

/-- `getResetDate()`: `now.setUTCDate(now.getUTCDate() + 7)`.  UTC has no
daylight-saving transitions, so advancing the UTC day-of-month by 7 is
exactly 7 · 86400000 ms after `now`. -/
def getResetDate (now : Int) : Int := now + 7 * 86400000

/-- The test `!resetAt || resetAt < new Date()` guarding the weekly reset:
the stored timestamp is absent, or strictly before `now`. -/
def windowExpired (resetAt : Option Int) (now : Int) : Bool :=
  match resetAt with
  | none => true
  | some t => t < now

/-- Result of the quota/plan reconciliation at the top of the ask handler. -/
structure Recon where
  plan : String
  quota : Int
  resetAt : Int
  store : Store
  ops : List StoreOp
deriving Repr, DecidableEq

/-- Lines 139–153 of the ask handler: read `plan`, `quota`,
`quota_reset_at` with destructuring defaults (an absent document reads as
`{}`), and if the window is expired reset the quota and persist
`{ quota, quota_reset_at }` with a merge write. -/
def reconcile (cfg : Config) (s : Store) (now : Int) : Recon :=
  let doc := s.user.getD UserDoc.empty
  let plan := doc.plan.getD "NONE"
  let quota := doc.quota.getD cfg.FREE_WEEKLY_LIMIT
  if windowExpired doc.quota_reset_at now then
    let p : UserPatch := { quota := some cfg.FREE_WEEKLY_LIMIT
                           quota_reset_at := some (getResetDate now) }
    { plan := plan
      quota := cfg.FREE_WEEKLY_LIMIT
      resetAt := getResetDate now
      store := { s with user := some (applyUserPatch s.user p) }
      ops := [StoreOp.setUserMerge p] }
  else
    { plan := plan
      quota := quota
      resetAt := doc.quota_reset_at.getD 0
      store := s
      ops := [] }

/-- Metadata of an attached file as sent in the request body. -/
structure FileMeta where
  name : Option String
  filename : Option String
  ext : Option String
  s3Key : Option String
  key : Option String
  path : Option String
deriving Repr, DecidableEq

def fileTitleOf (f : FileMeta) : String :=
  jsOr f.name (jsOr f.filename "Untitled")

/-- `String.prototype.toLowerCase()`: per-character lowering (the
extensions involved are ASCII). -/
def lowerStr (s : String) : String := ⟨s.data.map Char.toLower⟩

/-- `(fileMeta?.ext || fileTitle.split('.').pop() || '').toLowerCase()` -/
def extOf (f : FileMeta) : String :=
  lowerStr (jsOr f.ext (jsOr ((fileTitleOf f).splitOn ".").getLast? ""))

def errorMarker (msg : String) : String :=
  "[Error reading file or file not found in S3: " ++ msg ++ "]"

def notSupportedMarker : String := "[File type not supported for reading]"

/-- The per-file `try` block: `readRaw` stands for the S3 fetch plus the
format parser (utf8 decode / pdf-parse / mammoth); an exception anywhere in
the block degrades to the inline error marker.  Extracted text is truncated
to 4000 characters; unrecognised extensions get a fixed marker. -/
def fileTextOf (readRaw : FileMeta → Except String String) (f : FileMeta) : String :=
  match readRaw f with
  | .error e => errorMarker e
  | .ok raw =>
    if extOf f = "txt" then raw.take 4000
    else if extOf f = "pdf" then raw.take 4000
    else if extOf f = "docx" ∨ extOf f = "doc" then raw.take 4000
    else notSupportedMarker

def fileSummaryEntry (readRaw : FileMeta → Except String String) (f : FileMeta) : String :=
  "\n---\nFile: " ++ fileTitleOf f ++ "\n" ++ fileTextOf readRaw f ++ "\n"

/-- `if (Array.isArray(files) && files.length > 0 && S3_BUCKET)`: build the
context summary from the first three files. -/
def buildFileTextSummary (cfg : Config) (readRaw : FileMeta → Except String String)
    (files : List FileMeta) : String :=
  if files.isEmpty || !cfg.hasS3Bucket then ""
  else ((files.take 3).map (fileSummaryEntry readRaw)).foldl (· ++ ·) ""

/-- `fileTextSummary ? longPrompt : question` -/
def promptOf (summary question : String) : String :=
  if summary = "" then question
  else
    "The user has attached the following files. Use their content to answer the question.\n"
      ++ summary ++ "\nQuestion: " ++ question

/-- The parsed request body (`req.body || {}`). -/
structure ReqBody where
  question : Option String
  chatId : Option String
  files : List FileMeta
deriving Repr, DecidableEq

def ReqBody.empty : ReqBody := ⟨none, none, []⟩

/-- The `quota` field of a successful response: a number for free users,
`'∞'` for paying users. -/
inductive QuotaVal where
  | num (n : Int)
  | infinite
deriving Repr, DecidableEq

/-- The HTTP responses of the ask handler. -/
inductive AskResp where
  | missingUser
  | limitReached (resetAt : Int)
  | noQuestion
  | openaiError (detail : String)
  | ok (answer : String) (quota : QuotaVal) (resetAt : Int) (chatId : String)
deriving Repr, DecidableEq

def isLimitReached : AskResp → Bool
  | .limitReached _ => true
  | _ => false

/-- Result of one run of the ask handler: the response, the final store and
the trace of storage writes issued, in order. -/
structure AskOut where
  resp : AskResp
  store : Store
  ops : List StoreOp
deriving Repr, DecidableEq

def decPatch (q : Int) : UserPatch := { quota := some (q - 1) }

/-- `question.length > 35 ? question.slice(0, 35) + '…' : question` -/
def chatTitleOf (q : String) : String :=
  if q.length > 35 then q.take 35 ++ "…" else q

/-- The ask handler (`api/ask.js`, lines 131–260).  `readRaw` is the
S3-fetch-plus-parse oracle, `infer` the OpenAI chat-completion oracle
(returning the answer text or the thrown error), `fresh` the id Firestore
would assign to a newly added chat document. -/
def askHandler (cfg : Config) (s : Store) (now : Int)
    (uid : Option String) (body : Option ReqBody)
    (readRaw : FileMeta → Except String String)
    (infer : String → Except String String)
    (fresh : String) : AskOut :=
  match uid with
  | none => ⟨.missingUser, s, []⟩
  | some _ =>
    let rc := reconcile cfg s now
    if rc.plan = "NONE" ∧ rc.quota ≤ 0 then
      ⟨.limitReached rc.resetAt, rc.store, rc.ops⟩
    else
      let b := body.getD ReqBody.empty
      match b.question with
      | none => ⟨.noQuestion, rc.store, rc.ops⟩
      | some q =>
        if q = "" then ⟨.noQuestion, rc.store, rc.ops⟩
        else
          let summary := buildFileTextSummary cfg readRaw b.files
          match infer (promptOf summary q) with
          | .error e => ⟨.openaiError e, rc.store, rc.ops⟩
          | .ok answer =>
            let s2 := if rc.plan = "NONE"
              then { rc.store with
                       user := some (applyUserPatch rc.store.user (decPatch rc.quota)) }
              else rc.store
            let ops2 := if rc.plan = "NONE"
              then rc.ops ++ [StoreOp.setUserMerge (decPatch rc.quota)]
              else rc.ops
            let title := chatTitleOf q
            let chatDocId := jsOr b.chatId fresh
            let newChatOps := if jsOr b.chatId "" = ""
              then [StoreOp.addChat chatDocId title] else []
            let quotaOut := if rc.plan = "NONE"
              then QuotaVal.num (rc.quota - 1) else QuotaVal.infinite
            ⟨.ok answer quotaOut rc.resetAt chatDocId,
             { s2 with chats := s2.chats ++ [⟨chatDocId, title, q, answer⟩] },
             ops2 ++ newChatOps ++ [StoreOp.setChatMerge chatDocId title q answer]⟩

/-! ## Stripe webhook handler (`index.js`) -/

/-- The `stripe` sub-map of a user document written by the webhook.  `none`
stands for an absent or null field. -/
structure StripeInfo where
  customerId : Option String := none
  subscriptionId : Option String := none
  priceId : Option String := none
  status : Option String := none
  lastCheckoutSessionId : Option String := none
deriving Repr, DecidableEq

/-- The fields of a user document the webhook reads or writes. -/
structure WUser where
  plan : Option String := none
  stripe : StripeInfo := {}
deriving Repr, DecidableEq

/-- A `stripe_events/{id}` deduplication record. -/
structure EventRec where
  type : String
  created : Int
deriving Repr, DecidableEq

/-- The slice of Firestore the webhook touches: the `stripe_events`
deduplication collection, the `stripeCustomers` customer→uid index (the
stored `uid` may be null) and the `users` collection. -/
structure WStore where
  events : List (String × EventRec)
  customers : List (String × Option String)
  users : List (String × WUser)
deriving Repr, DecidableEq

/-- A `checkout.session.completed` payload (`event.data.object`). -/
structure CheckoutSession where
  id : String
  client_reference_id : Option String
  customer : Option String
  subscription : Option String
deriving Repr, DecidableEq

/-- A subscription payload (`event.data.object`): `priceId` folds the chain
`sub.items?.data?.[0]?.price?.id || sub.plan?.id || null`. -/
structure SubscriptionObj where
  id : String
  customer : String
  status : String
  priceId : Option String
deriving Repr, DecidableEq

/-- The event payloads the webhook switches on.  For checkout events,
`fullPriceId` and `fullSubId` carry the result of the expanded
`stripe.checkout.sessions.retrieve` call. -/
inductive StripeEventData where
  | checkoutCompleted (s : CheckoutSession) (fullPriceId : Option String) (fullSubId : Option String)
  | subscriptionUpdated (sub : SubscriptionObj)
  | subscriptionDeleted (sub : SubscriptionObj)
  | invoicePaymentSucceeded
  | invoicePaymentFailed
  | otherType (t : String)
deriving Repr, DecidableEq

def eventTypeOf : StripeEventData → String
  | .checkoutCompleted _ _ _ => "checkout.session.completed"
  | .subscriptionUpdated _ => "customer.subscription.updated"
  | .subscriptionDeleted _ => "customer.subscription.deleted"
  | .invoicePaymentSucceeded => "invoice.payment_succeeded"
  | .invoicePaymentFailed => "invoice.payment_failed"
  | .otherType t => t

/-- A verified Stripe event as produced by `constructEvent`. -/
structure StripeEvent where
  id : String
  created : Int
  data : StripeEventData
deriving Repr, DecidableEq

/-- The price→plan mapping; empty in the source (both webhook copies), so
every price falls through to the `"Pro"` default. -/
def PRICE_TO_PLAN : List (String × String) := []

/-- `PRICE_TO_PLAN[priceId] || "Pro"` -/
def planForPrice (priceId : Option String) : String :=
  jsOr (priceId.bind fun p => PRICE_TO_PLAN.lookup p) "Pro"

/-- Responses of the webhook route: a 400 with the interpolated error text,
or the 2xx JSON acknowledgment (with its `duplicate` flag). -/
inductive WResp where
  | webhookError (body : String)
  | received (duplicate : Bool)
deriving Repr, DecidableEq

/-- `snap.exists ? snap.data().uid : null` followed by `if (!uid) break`:
the uid a subscription event resolves its customer to, if any. -/
def uidOf (st : WStore) (customerId : String) : Option String :=
  match (st.customers.lookup customerId).getD none with
  | some u => if u = "" then none else some u
  | none => none

/-- The event switch plus the deduplication check that precedes it
(`index.js`, lines 39–126).  Association lists are updated by prepending,
which gives Firestore's read-your-write lookup semantics. -/
def processEvent (st : WStore) (e : StripeEvent) : WResp × WStore :=
  if (st.events.lookup e.id).isSome then (.received true, st)
  else
    let st1 := { st with events := (e.id, ⟨eventTypeOf e.data, e.created⟩) :: st.events }
    match e.data with
    | .checkoutCompleted cs fullPriceId fullSubId =>
      let uid := jsOrNull cs.client_reference_id
      let customerId := jsOrNull cs.customer
      let subscriptionId := jsOrOpt fullSubId cs.subscription
      let plan := planForPrice fullPriceId
      let st2 := match customerId with
        | some c => { st1 with customers := (c, uid) :: st1.customers }
        | none => st1
      match uid with
      | some u =>
        (.received false,
         { st2 with users := (u, { plan := some plan
                                   stripe := { customerId := customerId
                                               subscriptionId := subscriptionId
                                               priceId := fullPriceId
                                               status := some "active"
                                               lastCheckoutSessionId := some cs.id } }) :: st2.users })
      | none => (.received false, st2)
    | .subscriptionUpdated sub =>
      match uidOf st1 sub.customer with
      | none => (.received false, st1)
      | some u =>
        let plan := if sub.status = "active" ∨ sub.status = "trialing"
          then planForPrice sub.priceId else "NONE"
        let old := (st1.users.lookup u).getD {}
        (.received false,
         { st1 with users := (u, { plan := some plan
                                   stripe := { old.stripe with
                                                 customerId := some sub.customer
                                                 subscriptionId := some sub.id
                                                 priceId := sub.priceId
                                                 status := some sub.status } }) :: st1.users })
    | .subscriptionDeleted sub =>
      match uidOf st1 sub.customer with
      | none => (.received false, st1)
      | some u =>
        let old := (st1.users.lookup u).getD {}
        (.received false,
         { st1 with users := (u, { plan := some "NONE"
                                   stripe := { old.stripe with
                                                 customerId := some sub.customer
                                                 subscriptionId := some sub.id
                                                 status := some "canceled" } }) :: st1.users })
    | _ => (.received false, st1)

/-- The full webhook route: signature verification guards everything.
`sigVerify` is the outcome of `stripe.webhooks.constructEvent` — the parsed
event, or the thrown error's message. -/
def stripeWebhook (st : WStore) (sigVerify : Except String StripeEvent) : WResp × WStore :=
  match sigVerify with
  | .error msg => (.webhookError ("Webhook Error: " ++ msg), st)
  | .ok e => processEvent st e

/-! ## Helper lemmas -/

theorem reconcile_expired (cfg : Config) (s : Store) (now : Int)
    (h : windowExpired (s.user.getD UserDoc.empty).quota_reset_at now = true) :
    reconcile cfg s now =
      { plan := (s.user.getD UserDoc.empty).plan.getD "NONE"
        quota := cfg.FREE_WEEKLY_LIMIT
        resetAt := getResetDate now
        store := { s with user := some (applyUserPatch s.user
                     ⟨none, some cfg.FREE_WEEKLY_LIMIT, some (getResetDate now)⟩) }
        ops := [StoreOp.setUserMerge
                  ⟨none, some cfg.FREE_WEEKLY_LIMIT, some (getResetDate now)⟩] } := by
  simp [reconcile, h]

theorem reconcile_alive (cfg : Config) (s : Store) (now t : Int)
    (h : (s.user.getD UserDoc.empty).quota_reset_at = some t) (hn : ¬ t < now) :
    reconcile cfg s now =
      { plan := (s.user.getD UserDoc.empty).plan.getD "NONE"
        quota := (s.user.getD UserDoc.empty).quota.getD cfg.FREE_WEEKLY_LIMIT
        resetAt := t
        store := s
        ops := [] } := by
  simp [reconcile, windowExpired, h, hn]

theorem applyUserPatch_no_plan (u : Option UserDoc) (q r : Option Int) :
    applyUserPatch u ⟨none, q, r⟩ =
      { u.getD UserDoc.empty with
          quota := q <|> (u.getD UserDoc.empty).quota
          quota_reset_at := r <|> (u.getD UserDoc.empty).quota_reset_at } := by
  simp [applyUserPatch]

theorem askHandler_not_admitted (cfg : Config) (s : Store) (now : Int) (u : String)
    (body : Option ReqBody) (readRaw : FileMeta → Except String String)
    (infer : String → Except String String) (fresh : String)
    (h : (reconcile cfg s now).plan = "NONE" ∧ (reconcile cfg s now).quota ≤ 0) :
    askHandler cfg s now (some u) body readRaw infer fresh
      = ⟨.limitReached (reconcile cfg s now).resetAt,
         (reconcile cfg s now).store, (reconcile cfg s now).ops⟩ := by
  simp [askHandler, h]

theorem askHandler_no_question (cfg : Config) (s : Store) (now : Int) (u : String)
    (body : Option ReqBody) (readRaw : FileMeta → Except String String)
    (infer : String → Except String String) (fresh : String)
    (h : ¬ ((reconcile cfg s now).plan = "NONE" ∧ (reconcile cfg s now).quota ≤ 0))
    (hq : (body.getD ReqBody.empty).question = none) :
    askHandler cfg s now (some u) body readRaw infer fresh
      = ⟨.noQuestion, (reconcile cfg s now).store, (reconcile cfg s now).ops⟩ := by
  simp [askHandler, h, hq]

theorem askHandler_empty_question (cfg : Config) (s : Store) (now : Int) (u : String)
    (body : Option ReqBody) (readRaw : FileMeta → Except String String)
    (infer : String → Except String String) (fresh : String)
    (h : ¬ ((reconcile cfg s now).plan = "NONE" ∧ (reconcile cfg s now).quota ≤ 0))
    (hq : (body.getD ReqBody.empty).question = some "") :
    askHandler cfg s now (some u) body readRaw infer fresh
      = ⟨.noQuestion, (reconcile cfg s now).store, (reconcile cfg s now).ops⟩ := by
  simp [askHandler, h, hq]

theorem askHandler_infer_error (cfg : Config) (s : Store) (now : Int) (u : String)
    (body : Option ReqBody) (readRaw : FileMeta → Except String String)
    (infer : String → Except String String) (fresh : String) (q e : String)
    (h : ¬ ((reconcile cfg s now).plan = "NONE" ∧ (reconcile cfg s now).quota ≤ 0))
    (hq : (body.getD ReqBody.empty).question = some q) (hq0 : q ≠ "")
    (he : infer (promptOf
            (buildFileTextSummary cfg readRaw (body.getD ReqBody.empty).files) q)
          = .error e) :
    askHandler cfg s now (some u) body readRaw infer fresh
      = ⟨.openaiError e, (reconcile cfg s now).store, (reconcile cfg s now).ops⟩ := by
  simp [askHandler, h, hq, hq0, he]

theorem askHandler_ok_free (cfg : Config) (s : Store) (now : Int) (u : String)
    (body : Option ReqBody) (readRaw : FileMeta → Except String String)
    (infer : String → Except String String) (fresh : String) (q a : String)
    (h : ¬ ((reconcile cfg s now).plan = "NONE" ∧ (reconcile cfg s now).quota ≤ 0))
    (hplan : (reconcile cfg s now).plan = "NONE")
    (hq : (body.getD ReqBody.empty).question = some q) (hq0 : q ≠ "")
    (ha : infer (promptOf
            (buildFileTextSummary cfg readRaw (body.getD ReqBody.empty).files) q)
          = .ok a) :
    askHandler cfg s now (some u) body readRaw infer fresh
      = ⟨.ok a (.num ((reconcile cfg s now).quota - 1)) (reconcile cfg s now).resetAt
            (jsOr (body.getD ReqBody.empty).chatId fresh),
         ⟨some (applyUserPatch (reconcile cfg s now).store.user
                  (decPatch (reconcile cfg s now).quota)),
          (reconcile cfg s now).store.chats
            ++ [⟨jsOr (body.getD ReqBody.empty).chatId fresh, chatTitleOf q, q, a⟩]⟩,
         (reconcile cfg s now).ops
           ++ [StoreOp.setUserMerge (decPatch (reconcile cfg s now).quota)]
           ++ (if jsOr (body.getD ReqBody.empty).chatId "" = ""
               then [StoreOp.addChat (jsOr (body.getD ReqBody.empty).chatId fresh)
                       (chatTitleOf q)] else [])
           ++ [StoreOp.setChatMerge (jsOr (body.getD ReqBody.empty).chatId fresh)
                 (chatTitleOf q) q a]⟩ := by
  have hqpos : 0 < (reconcile cfg s now).quota := by
    rcases not_and_or.mp h with h1 | h2
    · exact absurd hplan h1
    · omega
  simp [askHandler, h, hplan, hq, hq0, ha, hqpos]

theorem askHandler_ok_paid (cfg : Config) (s : Store) (now : Int) (u : String)
    (body : Option ReqBody) (readRaw : FileMeta → Except String String)
    (infer : String → Except String String) (fresh : String) (q a : String)
    (hplan : (reconcile cfg s now).plan ≠ "NONE")
    (hq : (body.getD ReqBody.empty).question = some q) (hq0 : q ≠ "")
    (ha : infer (promptOf
            (buildFileTextSummary cfg readRaw (body.getD ReqBody.empty).files) q)
          = .ok a) :
    askHandler cfg s now (some u) body readRaw infer fresh
      = ⟨.ok a .infinite (reconcile cfg s now).resetAt
            (jsOr (body.getD ReqBody.empty).chatId fresh),
         ⟨(reconcile cfg s now).store.user,
          (reconcile cfg s now).store.chats
            ++ [⟨jsOr (body.getD ReqBody.empty).chatId fresh, chatTitleOf q, q, a⟩]⟩,
         (reconcile cfg s now).ops
           ++ (if jsOr (body.getD ReqBody.empty).chatId "" = ""
               then [StoreOp.addChat (jsOr (body.getD ReqBody.empty).chatId fresh)
                       (chatTitleOf q)] else [])
           ++ [StoreOp.setChatMerge (jsOr (body.getD ReqBody.empty).chatId fresh)
                 (chatTitleOf q) q a]⟩ := by
  simp [askHandler, hplan, hq, hq0, ha]

/-! ## Claims -/

/-- C2 counterexample: with `quota_reset_at = 100` and `now = 100` — so
`now ≥ quotaResetAt` and the claim demands a reset — the handler does not
reset: the guard `resetAt < new Date()` is strict, so the quota stays `1`
(not `FREE_WEEKLY_LIMIT = 3`), nothing is written, and both fields are
unchanged. -/
theorem reconcile_boundary_now_eq_resetAt :
    (reconcile ⟨3, false⟩ ⟨some ⟨some "NONE", some 1, some 100⟩, []⟩ 100).quota ≠ 3
    ∧ (reconcile ⟨3, false⟩ ⟨some ⟨some "NONE", some 1, some 100⟩, []⟩ 100).store
        = ⟨some ⟨some "NONE", some 1, some 100⟩, []⟩
    ∧ (reconcile ⟨3, false⟩ ⟨some ⟨some "NONE", some 1, some 100⟩, []⟩ 100).ops = [] := by
  decide

/-- C2 (amended): reconciliation in the ask handler resets exactly when the
stored reset timestamp is absent or strictly earlier than `now`; on reset it
sets `quota = FREE_WEEKLY_LIMIT` and `quota_reset_at` to exactly 7 days
(7 · 86400000 ms) after `now`, regardless of the plan, which is read but not
overwritten; when `now ≤ quota_reset_at`, neither field is changed and no
write is issued. -/
theorem reconcile_window_reset (cfg : Config) (s : Store) (now : Int) :
    (windowExpired (s.user.getD UserDoc.empty).quota_reset_at now = true →
      (reconcile cfg s now).quota = cfg.FREE_WEEKLY_LIMIT
      ∧ (reconcile cfg s now).resetAt = now + 7 * 86400000
      ∧ (reconcile cfg s now).store.user =
          some { s.user.getD UserDoc.empty with
                   quota := some cfg.FREE_WEEKLY_LIMIT
                   quota_reset_at := some (now + 7 * 86400000) }
      ∧ (reconcile cfg s now).plan = (s.user.getD UserDoc.empty).plan.getD "NONE")
    ∧ (∀ t : Int, (s.user.getD UserDoc.empty).quota_reset_at = some t → now ≤ t →
        (reconcile cfg s now).store = s ∧ (reconcile cfg s now).ops = []) := by
  constructor
  · intro h
    rw [reconcile_expired cfg s now h, applyUserPatch_no_plan]
    simp [getResetDate]
  · intro t ht hle
    rw [reconcile_alive cfg s now t ht (by omega)]
    exact ⟨rfl, rfl⟩

/-- C2 witness: at `now = 100` with no stored reset timestamp the reset
fires and yields quota 3; with `quota_reset_at = 500` in the future the
store is untouched. -/
theorem reconcile_window_reset_witness :
    (reconcile ⟨3, false⟩ ⟨none, []⟩ 100).quota = 3
    ∧ (reconcile ⟨3, false⟩ ⟨some ⟨some "PRO", some 2, some 500⟩, []⟩ 100).store
        = ⟨some ⟨some "PRO", some 2, some 500⟩, []⟩ :=
  ⟨((reconcile_window_reset ⟨3, false⟩ ⟨none, []⟩ 100).1 (by decide)).1,
   ((reconcile_window_reset ⟨3, false⟩ ⟨some ⟨some "PRO", some 2, some 500⟩, []⟩ 100).2
      500 rfl (by decide)).1⟩

/-- C1: admission rule of the ask handler.  After reconciliation, the
request is rejected with the 402 quota-exhaustion response iff the plan is
`NONE` and the quota is ≤ 0 — so `plan = PRO` is always admitted regardless
of quota; a non-admitted request is answered with `limitReached` carrying
the reconciled reset time, the store and write trace are exactly what
reconciliation left, and the outcome is independent of the inference
oracle, i.e. it happens before any inference call. -/
theorem ask_admission_rule (cfg : Config) (s : Store) (now : Int) (u : String)
    (body : Option ReqBody) (readRaw : FileMeta → Except String String)
    (infer infer2 : String → Except String String) (fresh : String) :
    (isLimitReached (askHandler cfg s now (some u) body readRaw infer fresh).resp = true
       ↔ ((reconcile cfg s now).plan = "NONE" ∧ (reconcile cfg s now).quota ≤ 0))
    ∧ ((reconcile cfg s now).plan = "NONE" ∧ (reconcile cfg s now).quota ≤ 0 →
        askHandler cfg s now (some u) body readRaw infer fresh
          = ⟨.limitReached (reconcile cfg s now).resetAt,
             (reconcile cfg s now).store, (reconcile cfg s now).ops⟩
        ∧ askHandler cfg s now (some u) body readRaw infer2 fresh
            = askHandler cfg s now (some u) body readRaw infer fresh) := by
  by_cases h : (reconcile cfg s now).plan = "NONE" ∧ (reconcile cfg s now).quota ≤ 0
  · refine ⟨?_, fun _ => ⟨askHandler_not_admitted cfg s now u body readRaw infer fresh h, ?_⟩⟩
    · rw [askHandler_not_admitted cfg s now u body readRaw infer fresh h]
      simpa [isLimitReached] using h
    · rw [askHandler_not_admitted cfg s now u body readRaw infer fresh h,
          askHandler_not_admitted cfg s now u body readRaw infer2 fresh h]
  · refine ⟨?_, fun hc => absurd hc h⟩
    rcases hqcase : (body.getD ReqBody.empty).question with _ | q
    · rw [askHandler_no_question cfg s now u body readRaw infer fresh h hqcase]
      simpa [isLimitReached] using h
    · by_cases hq0 : q = ""
      · subst hq0
        rw [askHandler_empty_question cfg s now u body readRaw infer fresh h hqcase]
        simpa [isLimitReached] using h
      · rcases hinf : infer (promptOf
            (buildFileTextSummary cfg readRaw (body.getD ReqBody.empty).files) q)
          with e | a
        · rw [askHandler_infer_error cfg s now u body readRaw infer fresh q e h hqcase hq0 hinf]
          simpa [isLimitReached] using h
        · by_cases hplan : (reconcile cfg s now).plan = "NONE"
          · rw [askHandler_ok_free cfg s now u body readRaw infer fresh q a h hplan hqcase hq0 hinf]
            simpa [isLimitReached] using h
          · rw [askHandler_ok_paid cfg s now u body readRaw infer fresh q a hplan hqcase hq0 hinf]
            simpa [isLimitReached] using h

/-- C1 witness: a free user with quota 0 inside the window is rejected with
the stored reset time, and the rejection does not depend on the inference
oracle. -/
theorem ask_admission_rule_witness :
    askHandler ⟨3, false⟩ ⟨some ⟨some "NONE", some 0, some 500⟩, []⟩ 100 (some "u")
        (some ⟨some "hi", none, []⟩) (fun _ => .error "s3") (fun _ => .ok "ans") "c1"
      = ⟨.limitReached 500, ⟨some ⟨some "NONE", some 0, some 500⟩, []⟩, []⟩ := by
  have h := ((ask_admission_rule ⟨3, false⟩ ⟨some ⟨some "NONE", some 0, some 500⟩, []⟩
      100 "u" (some ⟨some "hi", none, []⟩) (fun _ => .error "s3")
      (fun _ => .ok "ans") (fun _ => .ok "x") "c1").2 (by decide)).1
  rw [h]
  rfl

theorem reconcile_store_chats (cfg : Config) (s : Store) (now : Int) :
    (reconcile cfg s now).store.chats = s.chats := by
  cases hw : windowExpired (s.user.getD UserDoc.empty).quota_reset_at now <;>
    simp [reconcile, hw]

/-- C3: for an admitted request carrying a valid question, the quota is
decremented — by exactly 1, for `plan = NONE`, via a merge write — only
after a successful inference call: when the call fails, the handler returns
the 500 `openaiError` response, the store stays exactly as reconciliation
left it (quota not decremented), and no chat turn is persisted; when the
call succeeds for a free user the stored quota becomes the reconciled quota
minus 1. -/
theorem ask_decrement_only_on_success (cfg : Config) (s : Store) (now : Int) (u : String)
    (body : Option ReqBody) (readRaw : FileMeta → Except String String)
    (infer : String → Except String String) (fresh q : String)
    (h : ¬ ((reconcile cfg s now).plan = "NONE" ∧ (reconcile cfg s now).quota ≤ 0))
    (hq : (body.getD ReqBody.empty).question = some q) (hq0 : q ≠ "") :
    (∀ e, infer (promptOf
            (buildFileTextSummary cfg readRaw (body.getD ReqBody.empty).files) q)
          = .error e →
        askHandler cfg s now (some u) body readRaw infer fresh
          = ⟨.openaiError e, (reconcile cfg s now).store, (reconcile cfg s now).ops⟩
        ∧ storedQuota (askHandler cfg s now (some u) body readRaw infer fresh).store
            = storedQuota (reconcile cfg s now).store
        ∧ (askHandler cfg s now (some u) body readRaw infer fresh).store.chats = s.chats)
    ∧ (∀ a, infer (promptOf
            (buildFileTextSummary cfg readRaw (body.getD ReqBody.empty).files) q)
          = .ok a → (reconcile cfg s now).plan = "NONE" →
        storedQuota (askHandler cfg s now (some u) body readRaw infer fresh).store
          = some ((reconcile cfg s now).quota - 1)) := by
  constructor
  · intro e he
    rw [askHandler_infer_error cfg s now u body readRaw infer fresh q e h hq hq0 he]
    exact ⟨rfl, rfl, reconcile_store_chats cfg s now⟩
  · intro a ha hplan
    rw [askHandler_ok_free cfg s now u body readRaw infer fresh q a h hplan hq hq0 ha]
    simp [storedQuota, applyUserPatch, decPatch]

/-- C3 witness: with reconciled quota 2, a failed inference returns the 500
response and leaves quota 2; a successful one stores quota 1. -/
theorem ask_decrement_only_on_success_witness :
    askHandler ⟨3, false⟩ ⟨some ⟨some "NONE", some 2, some 500⟩, []⟩ 100 (some "u")
        (some ⟨some "hi", none, []⟩) (fun _ => .error "s3") (fun _ => .error "boom") "c1"
      = ⟨.openaiError "boom", ⟨some ⟨some "NONE", some 2, some 500⟩, []⟩, []⟩
    ∧ storedQuota (askHandler ⟨3, false⟩ ⟨some ⟨some "NONE", some 2, some 500⟩, []⟩ 100
        (some "u") (some ⟨some "hi", none, []⟩) (fun _ => .error "s3")
        (fun _ => .ok "ans") "c1").store = some 1 := by
  constructor
  · have h := ((ask_decrement_only_on_success ⟨3, false⟩
        ⟨some ⟨some "NONE", some 2, some 500⟩, []⟩ 100 "u" (some ⟨some "hi", none, []⟩)
        (fun _ => .error "s3") (fun _ => .error "boom") "c1" "hi"
        (by decide) rfl (by decide)).1 "boom" rfl).1
    rw [h]
    rfl
  · have h := (ask_decrement_only_on_success ⟨3, false⟩
        ⟨some ⟨some "NONE", some 2, some 500⟩, []⟩ 100 "u" (some ⟨some "hi", none, []⟩)
        (fun _ => .error "s3") (fun _ => .ok "ans") "c1" "hi"
        (by decide) rfl (by decide)).2 "ans" rfl (by decide)
    rw [h]
    rfl

theorem reconcile_quota_cases (cfg : Config) (s : Store) (now : Int) :
    storedQuota (reconcile cfg s now).store = some cfg.FREE_WEEKLY_LIMIT
    ∨ (reconcile cfg s now).store = s := by
  cases hw : windowExpired (s.user.getD UserDoc.empty).quota_reset_at now
  · right
    simp [reconcile, hw]
  · left
    rw [reconcile_expired cfg s now hw]
    simp [storedQuota, applyUserPatch]

theorem reconcile_ops_not_cond (cfg : Config) (s : Store) (now : Int) :
    ∀ op ∈ (reconcile cfg s now).ops, op.isCondWrite = false := by
  cases hw : windowExpired (s.user.getD UserDoc.empty).quota_reset_at now <;>
    simp [reconcile, hw, StoreOp.isCondWrite]

/-- C4 counterexample: on a concrete admitted request (free user, quota 3,
successful inference) the decrement the handler issues is the plain
unconditional merge write `set({quota: 2}, {merge: true})`; no operation in
the whole write trace is a storage-layer conditional write guarded by
`quota > 0`, contradicting the claim's required enforcement. -/
theorem ask_decrement_unconditional_write :
    (askHandler ⟨3, false⟩ ⟨some ⟨some "NONE", some 3, some 500⟩, []⟩ 100 (some "u")
        (some ⟨some "hi", none, []⟩) (fun _ => .error "s3") (fun _ => .ok "ans") "c1").ops
      = [StoreOp.setUserMerge ⟨none, some 2, none⟩,
         StoreOp.addChat "c1" "hi", StoreOp.setChatMerge "c1" "hi" "hi" "ans"]
    ∧ ∀ op ∈ (askHandler ⟨3, false⟩ ⟨some ⟨some "NONE", some 3, some 500⟩, []⟩ 100 (some "u")
        (some ⟨some "hi", none, []⟩) (fun _ => .error "s3") (fun _ => .ok "ans") "c1").ops,
        op.isCondWrite = false := by
  refine ⟨rfl, ?_⟩
  decide

/-- C4 (amended): every single execution of the ask handler preserves
`quota ≥ 0` — starting from a store whose quota field (when present) is
nonnegative and a nonnegative `FREE_WEEKLY_LIMIT`, the stored quota after
the handler completes is nonnegative — but the enforcement is application
logic only: every storage operation the handler issues is an unconditional
merge write, never a conditional write guarded by `quota > 0`. -/
theorem ask_quota_nonneg_app_level (cfg : Config) (s : Store) (now : Int)
    (uid : Option String) (body : Option ReqBody)
    (readRaw : FileMeta → Except String String)
    (infer : String → Except String String) (fresh : String)
    (hq0 : ∀ n, storedQuota s = some n → 0 ≤ n)
    (hlim : 0 ≤ cfg.FREE_WEEKLY_LIMIT) :
    (∀ n, storedQuota (askHandler cfg s now uid body readRaw infer fresh).store = some n
        → 0 ≤ n)
    ∧ (∀ op ∈ (askHandler cfg s now uid body readRaw infer fresh).ops,
        op.isCondWrite = false) := by
  have hrc : ∀ n, storedQuota (reconcile cfg s now).store = some n → 0 ≤ n := by
    intro n hn
    rcases reconcile_quota_cases cfg s now with hc | hc
    · rw [hc] at hn
      injection hn with hn
      omega
    · rw [hc] at hn
      exact hq0 n hn
  cases uid with
  | none => exact ⟨by simpa [askHandler] using hq0, by simp [askHandler]⟩
  | some u =>
    by_cases h : (reconcile cfg s now).plan = "NONE" ∧ (reconcile cfg s now).quota ≤ 0
    · rw [askHandler_not_admitted cfg s now u body readRaw infer fresh h]
      exact ⟨hrc, reconcile_ops_not_cond cfg s now⟩
    · rcases hqcase : (body.getD ReqBody.empty).question with _ | q
      · rw [askHandler_no_question cfg s now u body readRaw infer fresh h hqcase]
        exact ⟨hrc, reconcile_ops_not_cond cfg s now⟩
      · by_cases hqe : q = ""
        · subst hqe
          rw [askHandler_empty_question cfg s now u body readRaw infer fresh h hqcase]
          exact ⟨hrc, reconcile_ops_not_cond cfg s now⟩
        · rcases hinf : infer (promptOf
              (buildFileTextSummary cfg readRaw (body.getD ReqBody.empty).files) q)
            with e | a
          · rw [askHandler_infer_error cfg s now u body readRaw infer fresh q e h hqcase hqe hinf]
            exact ⟨hrc, reconcile_ops_not_cond cfg s now⟩
          · by_cases hplan : (reconcile cfg s now).plan = "NONE"
            · rw [askHandler_ok_free cfg s now u body readRaw infer fresh q a h hplan hqcase hqe hinf]
              have hqpos : 0 < (reconcile cfg s now).quota := by
                rcases not_and_or.mp h with h1 | h2
                · exact absurd hplan h1
                · omega
              constructor
              · intro n hn
                simp [storedQuota, applyUserPatch, decPatch] at hn
                omega
              · intro op hop
                simp only [List.mem_append] at hop
                rcases hop with ((hop | hop) | hop) | hop
                · exact reconcile_ops_not_cond cfg s now op hop
                · simp at hop
                  subst hop
                  rfl
                · split at hop
                  · simp at hop
                    subst hop
                    rfl
                  · exact absurd hop (List.not_mem_nil op)
                · simp at hop
                  subst hop
                  rfl
            · rw [askHandler_ok_paid cfg s now u body readRaw infer fresh q a hplan hqcase hqe hinf]
              refine ⟨hrc, ?_⟩
              intro op hop
              simp only [List.mem_append] at hop
              rcases hop with (hop | hop) | hop
              · exact reconcile_ops_not_cond cfg s now op hop
              · split at hop
                · simp at hop
                  subst hop
                  rfl
                · exact absurd hop (List.not_mem_nil op)
              · simp at hop
                subst hop
                rfl

/-- C4 witness: a fresh free user (no document, limit 3) after one
successful request ends with stored quota 2 ≥ 0, and issues no conditional
write. -/
theorem ask_quota_nonneg_app_level_witness :
    (∀ n, storedQuota (askHandler ⟨3, false⟩ ⟨none, []⟩ 100 (some "u")
        (some ⟨some "hi", none, []⟩) (fun _ => .error "s3") (fun _ => .ok "ans")
        "c1").store = some n → 0 ≤ n)
    ∧ (∀ op ∈ (askHandler ⟨3, false⟩ ⟨none, []⟩ 100 (some "u")
        (some ⟨some "hi", none, []⟩) (fun _ => .error "s3") (fun _ => .ok "ans")
        "c1").ops, op.isCondWrite = false) :=
  ask_quota_nonneg_app_level ⟨3, false⟩ ⟨none, []⟩ 100 (some "u")
    (some ⟨some "hi", none, []⟩) (fun _ => .error "s3") (fun _ => .ok "ans") "c1"
    (by intro n hn; simp [storedQuota] at hn) (by decide)

/-- C8 counterexample: for a user with no entitlement document, the
initialization write persists only `quota` and `quota_reset_at`; the
persisted document's `plan` field stays absent — it is not `some "NONE"` —
so the initialized `plan` value is not persisted to the store. -/
theorem reconcile_init_plan_not_persisted :
    (reconcile ⟨3, false⟩ ⟨none, []⟩ 100).ops
      = [StoreOp.setUserMerge ⟨none, some 3, some 604800100⟩]
    ∧ (reconcile ⟨3, false⟩ ⟨none, []⟩ 100).store.user
      = some ⟨none, some 3, some 604800100⟩
    ∧ ((reconcile ⟨3, false⟩ ⟨none, []⟩ 100).store.user.map UserDoc.plan)
      ≠ some (some "NONE") := by
  decide

/-- C8 (amended): when no entitlement document exists for the requesting
user, reconciliation in the ask handler initializes `plan = "NONE"`,
`quota = FREE_WEEKLY_LIMIT` and `quotaResetAt = now + 7 days` in memory,
and persists `quota` and `quota_reset_at` with a single merge write that
creates the document; the `plan` field is not part of the write and remains
absent in the store. -/
theorem reconcile_init_defaults (cfg : Config) (s : Store) (now : Int)
    (hs : s.user = none) :
    (reconcile cfg s now).plan = "NONE"
    ∧ (reconcile cfg s now).quota = cfg.FREE_WEEKLY_LIMIT
    ∧ (reconcile cfg s now).resetAt = now + 7 * 86400000
    ∧ (reconcile cfg s now).ops
        = [StoreOp.setUserMerge
             ⟨none, some cfg.FREE_WEEKLY_LIMIT, some (now + 7 * 86400000)⟩]
    ∧ (reconcile cfg s now).store.user
        = some ⟨none, some cfg.FREE_WEEKLY_LIMIT, some (now + 7 * 86400000)⟩ := by
  have hw : windowExpired (s.user.getD UserDoc.empty).quota_reset_at now = true := by
    simp [hs, windowExpired, UserDoc.empty]
  rw [reconcile_expired cfg s now hw]
  simp [hs, applyUserPatch, getResetDate, UserDoc.empty]

/-- C8 witness: the concrete fresh user at `now = 100` with limit 3. -/
theorem reconcile_init_defaults_witness :
    (reconcile ⟨3, false⟩ ⟨none, []⟩ 100).plan = "NONE"
    ∧ (reconcile ⟨3, false⟩ ⟨none, []⟩ 100).quota = 3
    ∧ (reconcile ⟨3, false⟩ ⟨none, []⟩ 100).resetAt = 100 + 7 * 86400000
    ∧ (reconcile ⟨3, false⟩ ⟨none, []⟩ 100).ops
        = [StoreOp.setUserMerge ⟨none, some 3, some (100 + 7 * 86400000)⟩]
    ∧ (reconcile ⟨3, false⟩ ⟨none, []⟩ 100).store.user
        = some ⟨none, some 3, some (100 + 7 * 86400000)⟩ :=
  reconcile_init_defaults ⟨3, false⟩ ⟨none, []⟩ 100 rfl

/-- C10: when the quota window is expired and the body carries no question,
the reset is persisted before body validation: the handler answers with the
400 `noQuestion` response, its write trace is exactly the one reconciliation
merge write on `quota` and `quota_reset_at`, the stored document keeps every
other field (in particular `plan`), no quota decrement happens and no chat
turn is written. -/
theorem ask_reset_persisted_on_bad_request (cfg : Config) (s : Store) (now : Int)
    (u : String) (body : Option ReqBody)
    (readRaw : FileMeta → Except String String)
    (infer : String → Except String String) (fresh : String)
    (hexp : windowExpired (s.user.getD UserDoc.empty).quota_reset_at now = true)
    (hq : (body.getD ReqBody.empty).question = none)
    (hlim : 0 < cfg.FREE_WEEKLY_LIMIT) :
    askHandler cfg s now (some u) body readRaw infer fresh
      = ⟨.noQuestion,
         ⟨some { s.user.getD UserDoc.empty with
                   quota := some cfg.FREE_WEEKLY_LIMIT
                   quota_reset_at := some (getResetDate now) }, s.chats⟩,
         [StoreOp.setUserMerge
            ⟨none, some cfg.FREE_WEEKLY_LIMIT, some (getResetDate now)⟩]⟩ := by
  have hadm : ¬ ((reconcile cfg s now).plan = "NONE"
      ∧ (reconcile cfg s now).quota ≤ 0) := by
    rw [reconcile_expired cfg s now hexp]
    intro hc
    exact absurd hc.2 (not_le.mpr hlim)
  rw [askHandler_no_question cfg s now u body readRaw infer fresh hadm hq,
      reconcile_expired cfg s now hexp]
  rfl

/-- C10 witness: a PRO user whose window expired at 50, asked at `now = 100`
with an empty body, gets a 400 while quota and reset time are rewritten and
the plan is untouched. -/
theorem ask_reset_persisted_on_bad_request_witness :
    askHandler ⟨3, false⟩ ⟨some ⟨some "PRO", some 0, some 50⟩, []⟩ 100 (some "u")
        (some ⟨none, none, []⟩) (fun _ => .error "s3") (fun _ => .ok "ans") "c1"
      = ⟨.noQuestion, ⟨some ⟨some "PRO", some 3, some 604800100⟩, []⟩,
         [StoreOp.setUserMerge ⟨none, some 3, some 604800100⟩]⟩ := by
  have h := ask_reset_persisted_on_bad_request ⟨3, false⟩
      ⟨some ⟨some "PRO", some 0, some 50⟩, []⟩ 100 "u" (some ⟨none, none, []⟩)
      (fun _ => .error "s3") (fun _ => .ok "ans") "c1" (by decide) rfl (by decide)
  rw [h]
  rfl

theorem string_take_length_le (s : String) (n : Nat) : (s.take n).length ≤ n := by
  rw [String.take_eq]
  show (s.1.take n).length ≤ n
  exact List.length_take_le ..

/-- C9: the document-context stage reads at most 3 files (the summary
depends only on the first three); a supported extension (`txt`, `pdf`,
`docx`, `doc`) yields the extracted text truncated to at most 4000
characters; any other extension yields the fixed not-supported marker; a
failed extraction yields the inline error marker for that file; and
extraction failures never fail the request — even with every file read
failing, a successful inference still produces the `ok` response. -/
theorem ask_file_enrichment (cfg : Config) (readRaw : FileMeta → Except String String) :
    (∀ files : List FileMeta,
       buildFileTextSummary cfg readRaw files
         = buildFileTextSummary cfg readRaw (files.take 3))
    ∧ (∀ f raw, readRaw f = .ok raw →
        (extOf f = "txt" ∨ extOf f = "pdf" ∨ extOf f = "docx" ∨ extOf f = "doc") →
        fileTextOf readRaw f = raw.take 4000 ∧ (fileTextOf readRaw f).length ≤ 4000)
    ∧ (∀ f raw, readRaw f = .ok raw →
        ¬ (extOf f = "txt" ∨ extOf f = "pdf" ∨ extOf f = "docx" ∨ extOf f = "doc") →
        fileTextOf readRaw f = notSupportedMarker)
    ∧ (∀ f e, readRaw f = .error e → fileTextOf readRaw f = errorMarker e)
    ∧ (∀ (s : Store) (now : Int) (u : String) (body : Option ReqBody) (q a fresh : String),
        ¬ ((reconcile cfg s now).plan = "NONE" ∧ (reconcile cfg s now).quota ≤ 0) →
        (body.getD ReqBody.empty).question = some q → q ≠ "" →
        (askHandler cfg s now (some u) body readRaw (fun _ => .ok a) fresh).resp
          = .ok a (if (reconcile cfg s now).plan = "NONE"
                   then .num ((reconcile cfg s now).quota - 1) else .infinite)
              (reconcile cfg s now).resetAt
              (jsOr (body.getD ReqBody.empty).chatId fresh)) := by
  refine ⟨?_, ?_, ?_, ?_, ?_⟩
  · intro files
    cases files with
    | nil => rfl
    | cons x xs => simp [buildFileTextSummary, List.take_take]
  · intro f raw hr hext
    have htext : fileTextOf readRaw f = raw.take 4000 := by
      rcases hext with h | h | h | h <;> simp [fileTextOf, hr, h]
    exact ⟨htext, htext ▸ string_take_length_le raw 4000⟩
  · intro f raw hr hext
    push_neg at hext
    simp [fileTextOf, hr, hext.1, hext.2.1, hext.2.2.1, hext.2.2.2]
  · intro f e hr
    simp [fileTextOf, hr]
  · intro s now u body q a fresh h hq hq0
    by_cases hplan : (reconcile cfg s now).plan = "NONE"
    · rw [askHandler_ok_free cfg s now u body readRaw (fun _ => .ok a) fresh q a
          h hplan hq hq0 rfl]
      simp [hplan]
    · rw [askHandler_ok_paid cfg s now u body readRaw (fun _ => .ok a) fresh q a
          hplan hq hq0 rfl]
      simp [hplan]

/-- C9 witness: one failing pdf, one oversized txt and one unknown
extension among four attached files: the fourth is ignored, the failing
file degrades to its error marker, and the request still succeeds. -/
theorem ask_file_enrichment_witness :
    buildFileTextSummary ⟨3, true⟩
        (fun f => if f.ext = some "pdf" then .error "boom" else .ok "hello")
        [⟨some "a.pdf", none, some "pdf", none, none, none⟩,
         ⟨some "b.txt", none, some "txt", none, none, none⟩,
         ⟨some "c.xyz", none, some "xyz", none, none, none⟩,
         ⟨some "d.txt", none, some "txt", none, none, none⟩]
      = buildFileTextSummary ⟨3, true⟩
        (fun f => if f.ext = some "pdf" then .error "boom" else .ok "hello")
        [⟨some "a.pdf", none, some "pdf", none, none, none⟩,
         ⟨some "b.txt", none, some "txt", none, none, none⟩,
         ⟨some "c.xyz", none, some "xyz", none, none, none⟩]
    ∧ fileTextOf (fun f => if f.ext = some "pdf" then .error "boom" else .ok "hello")
        ⟨some "a.pdf", none, some "pdf", none, none, none⟩ = errorMarker "boom"
    ∧ fileTextOf (fun f => if f.ext = some "pdf" then .error "boom" else .ok "hello")
        ⟨some "c.xyz", none, some "xyz", none, none, none⟩ = notSupportedMarker
    ∧ (askHandler ⟨3, true⟩ ⟨some ⟨some "NONE", some 2, some 500⟩, []⟩ 100 (some "u")
        (some ⟨some "hi", none,
          [⟨some "a.pdf", none, some "pdf", none, none, none⟩]⟩)
        (fun f => if f.ext = some "pdf" then .error "boom" else .ok "hello")
        (fun _ => .ok "ans") "c1").resp
      = .ok "ans" (.num 1) 500 "c1" := by
  refine ⟨(ask_file_enrichment ⟨3, true⟩ _).1 _, ?_, ?_, ?_⟩
  · exact (ask_file_enrichment ⟨3, true⟩ _).2.2.2.1 _ "boom" rfl
  · exact (ask_file_enrichment ⟨3, true⟩ _).2.2.1 _ "hello" rfl (by decide)
  · have h := (ask_file_enrichment ⟨3, true⟩
        (fun f => if f.ext = some "pdf" then .error "boom" else .ok "hello")).2.2.2.2
        ⟨some ⟨some "NONE", some 2, some 500⟩, []⟩ 100 "u"
        (some ⟨some "hi", none, [⟨some "a.pdf", none, some "pdf", none, none, none⟩]⟩)
        "hi" "ans" "c1" (by decide) rfl (by decide)
    rw [h]
    rfl

theorem uidOf_events (st : WStore) (ev : List (String × EventRec)) (c : String) :
    uidOf { st with events := ev } c = uidOf st c := rfl

theorem processEvent_duplicate (st : WStore) (e : StripeEvent)
    (h : (st.events.lookup e.id).isSome = true) :
    processEvent st e = (.received true, st) := by
  unfold processEvent
  rw [if_pos h]

theorem processEvent_keeps_id (st : WStore) (e : StripeEvent) :
    ((processEvent st e).2.events.lookup e.id).isSome = true := by
  by_cases h : (st.events.lookup e.id).isSome = true
  · rw [processEvent_duplicate st e h]
    exact h
  · unfold processEvent
    rw [if_neg (by simpa using h)]
    rcases e with ⟨id, created, data⟩
    cases data with
    | checkoutCompleted cs fp fs =>
      dsimp only
      cases jsOrNull cs.customer <;> cases jsOrNull cs.client_reference_id <;>
        simp [List.lookup]
    | subscriptionUpdated sub =>
      dsimp only
      rw [uidOf_events]
      cases uidOf st sub.customer <;> simp [List.lookup]
    | subscriptionDeleted sub =>
      dsimp only
      rw [uidOf_events]
      cases uidOf st sub.customer <;> simp [List.lookup]
    | invoicePaymentSucceeded => simp [List.lookup]
    | invoicePaymentFailed => simp [List.lookup]
    | otherType t => simp [List.lookup]

/-- C5: payment-event idempotence: after any first delivery of an event,
a second delivery of the same event short-circuits at the deduplication
check — before the event switch — performs no further mutation (the store
is returned unchanged) and acknowledges with the 2xx
`{received: true, duplicate: true}` response.  Hence processing the same
event id twice mutates entitlement state at most once. -/
theorem processEvent_idempotent (st : WStore) (e : StripeEvent) :
    processEvent (processEvent st e).2 e = (.received true, (processEvent st e).2) :=
  processEvent_duplicate (processEvent st e).2 e (processEvent_keeps_id st e)

/-- C6: the webhook plan state machine.  A fresh checkout-completed event
with a usable `client_reference_id` and customer writes the
customer→user index entry and sets the mapped plan (every price maps to
`"Pro"`, the default, since the price table is empty), the payment
identifiers and status `"active"`; a subscription-updated event for a
resolvable customer sets the mapped plan when the status is `active` or
`trialing` and `"NONE"` otherwise; a subscription-deleted event for a
resolvable customer sets plan `"NONE"` with status `"canceled"`; and for a
subscription event whose customer cannot be resolved, the only change is
the deduplication record — no user or index document is mutated — and the
response is still the 2xx acknowledgment. -/
theorem webhook_plan_state_machine (st : WStore) (id : String) (created : Int)
    (hfresh : (st.events.lookup id).isSome = false) :
    (∀ (cs : CheckoutSession) (fp fs : Option String) (u c : String),
        cs.client_reference_id = some u → u ≠ "" →
        cs.customer = some c → c ≠ "" →
        (processEvent st ⟨id, created, .checkoutCompleted cs fp fs⟩).1 = .received false
        ∧ ((processEvent st ⟨id, created, .checkoutCompleted cs fp fs⟩).2.customers.lookup c)
            = some (some u)
        ∧ ((processEvent st ⟨id, created, .checkoutCompleted cs fp fs⟩).2.users.lookup u)
            = some ⟨some (planForPrice fp),
                    ⟨some c, jsOrOpt fs cs.subscription, fp, some "active", some cs.id⟩⟩)
    ∧ (∀ p : Option String, planForPrice p = "Pro")
    ∧ (∀ (sub : SubscriptionObj) (u : String),
        uidOf st sub.customer = some u →
        (processEvent st ⟨id, created, .subscriptionUpdated sub⟩).1 = .received false
        ∧ ((processEvent st ⟨id, created, .subscriptionUpdated sub⟩).2.users.lookup u).map
              WUser.plan
            = some (some (if sub.status = "active" ∨ sub.status = "trialing"
                          then planForPrice sub.priceId else "NONE")))
    ∧ (∀ (sub : SubscriptionObj) (u : String),
        uidOf st sub.customer = some u →
        (processEvent st ⟨id, created, .subscriptionDeleted sub⟩).1 = .received false
        ∧ ((processEvent st ⟨id, created, .subscriptionDeleted sub⟩).2.users.lookup u).map
              (fun w => (w.plan, w.stripe.status))
            = some (some "NONE", some "canceled"))
    ∧ (∀ sub : SubscriptionObj, uidOf st sub.customer = none →
        processEvent st ⟨id, created, .subscriptionUpdated sub⟩
          = (.received false,
             { st with events :=
                 (id, ⟨"customer.subscription.updated", created⟩) :: st.events })
        ∧ processEvent st ⟨id, created, .subscriptionDeleted sub⟩
          = (.received false,
             { st with events :=
                 (id, ⟨"customer.subscription.deleted", created⟩) :: st.events })) := by
  refine ⟨?_, ?_, ?_, ?_, ?_⟩
  · intro cs fp fs u c hcu hu hcc hc
    unfold processEvent
    rw [if_neg (by simp [hfresh])]
    simp only [jsOrNull, hcu, hcc, if_neg hu, if_neg hc]
    simp [List.lookup]
  · intro p
    cases p <;> simp [planForPrice, PRICE_TO_PLAN, jsOr]
  · intro sub u hu
    unfold processEvent
    rw [if_neg (by simp [hfresh])]
    dsimp only
    rw [uidOf_events, hu]
    simp [List.lookup]
  · intro sub u hu
    unfold processEvent
    rw [if_neg (by simp [hfresh])]
    dsimp only
    rw [uidOf_events, hu]
    simp [List.lookup]
  · intro sub hu
    constructor <;>
      · unfold processEvent
        rw [if_neg (by simp [hfresh])]
        dsimp only
        rw [uidOf_events, hu]
        rfl

/-- C6 witness: concrete events against the index `cust1 ↦ u2`: a checkout
for `u1` ends with plan `"Pro"` and status `"active"`; a `past_due` update
for `cust1` drops `u2` to `"NONE"`; an update for the unmapped customer
`ghost` only records the event id. -/
theorem webhook_plan_state_machine_witness :
    ((processEvent ⟨[], [("cust1", some "u2")], []⟩
        ⟨"evt1", 5, .checkoutCompleted ⟨"sess1", some "u1", some "c1", none⟩
          none none⟩).2.users.lookup "u1")
      = some ⟨some "Pro", ⟨some "c1", none, none, some "active", some "sess1"⟩⟩
    ∧ (((processEvent ⟨[], [("cust1", some "u2")], []⟩
        ⟨"evt1", 5, .subscriptionUpdated ⟨"sub1", "cust1", "past_due",
          none⟩⟩).2.users.lookup "u2").map WUser.plan)
      = some (some "NONE")
    ∧ processEvent ⟨[], [("cust1", some "u2")], []⟩
        ⟨"evt1", 5, .subscriptionUpdated ⟨"sub9", "ghost", "active", none⟩⟩
      = (.received false,
         ⟨[("evt1", ⟨"customer.subscription.updated", 5⟩)], [("cust1", some "u2")], []⟩) := by
  refine ⟨?_, ?_, ?_⟩
  · exact (((webhook_plan_state_machine ⟨[], [("cust1", some "u2")], []⟩ "evt1" 5
      (by decide)).1 ⟨"sess1", some "u1", some "c1", none⟩ none none "u1" "c1"
      rfl (by decide) rfl (by decide)).2.2).trans (by decide)
  · exact (((webhook_plan_state_machine ⟨[], [("cust1", some "u2")], []⟩ "evt1" 5
      (by decide)).2.2.1 ⟨"sub1", "cust1", "past_due", none⟩ "u2" (by decide)).2).trans
      (by decide)
  · exact (((webhook_plan_state_machine ⟨[], [("cust1", some "u2")], []⟩ "evt1" 5
      (by decide)).2.2.2.2 ⟨"sub9", "ghost", "active", none⟩ (by decide)).1).trans
      (by decide)

/-- C7 counterexample: the 400 rejection body of a failed signature
verification is not a generic message: it embeds the verification error's
own text, so the internal detail appears verbatim in the body and two
different internal failures produce two different response bodies. -/
theorem webhook_sig_failure_echoes_detail :
    (stripeWebhook ⟨[], [], []⟩ (.error "internal detail A")).1
      = .webhookError "Webhook Error: internal detail A"
    ∧ (stripeWebhook ⟨[], [], []⟩ (.error "msgA")).1
      ≠ (stripeWebhook ⟨[], [], []⟩ (.error "msgB")).1 :=
  ⟨rfl, by decide⟩

/-- C7 (amended): signature verification guards all event processing: when
`constructEvent` fails, the webhook returns the 400 rejection immediately
and no stored state is mutated — but the response body is
`"Webhook Error: " ++ msg`, echoing the verification error's message
rather than a fixed generic message. -/
theorem webhook_sig_failure_rejects_without_mutation (st : WStore) (msg : String) :
    stripeWebhook st (.error msg)
      = (.webhookError ("Webhook Error: " ++ msg), st) := rfl

end RealestateGPT
